import Mathlib

/-!
Verification of the slipstream SIP ALG NAT-traversal tool (Go, two source
files: `main.go` and an unnamed earlier variant of the same program).

The development shallowly embeds, over `List Char`:
* the two fixed SIP message templates (`sipResponse`, `sipRequest`) and a
  small model of Go's `text/template` parse/execute pipeline restricted to
  the `{{ .Field }}` actions these templates use;
* the three regular expressions `Contact:[^\r]+`, `Via:[^\r]+` and
  `@(?P<callback>[^;]+)` together with Go's leftmost-match `Find` /
  `FindSubmatch` semantics for them;
* the byte-at-a-time read loop of `handleConnection` that accumulates until
  the last four bytes equal `CRLF CRLF`;
* the per-connection handler of `main.go` (`handleMessage`) and of the
  unnamed variant (`handleMessage2`), recording the write calls made on the
  inbound connection, the log lines, the callback dial target, and whether
  the handler aborts the whole process.
-/

namespace Slipstream

/-- The 200 OK response template, transcribed verbatim from `main.go`
(`sipResponse`).  Braces of the template actions are written with `\x7b` /
`\x7d` escapes. -/
def sipResponse : String :=
  "SIP/2.0 200 OK\r\n" ++
  "\x7b\x7b .Via \x7d\x7d;received=0.0.0.0\r\n" ++
  "From: <sip:wuzzi@example.org;transport=TCP>;tag=U7c3d519\r\n" ++
  "To: <sip:wuzzi@example.org;transport=TCP>;tag=37GkEhwl6\r\n" ++
  "Call-ID: aaaaaaaaaaaaaaaaa0404aaaaaaaaaaaabbbbbbZjQ4M2M.\r\n" ++
  "CSeq: 1 REGISTER\r\n" ++
  "\x7b\x7b .Contact \x7d\x7d;expires=3600\r\n" ++
  "Content-Length: 0\r\n" ++
  "\r\n"

/-- The REGISTER request template, transcribed verbatim from `main.go`
(`sipRequest`). -/
def sipRequest : String :=
  "REGISTER sip:example.org;transport=TCP SIP/2.0\r\n" ++
  "Via: SIP/2.0/TCP \x7b\x7b .LocalIP \x7d\x7d:\x7b\x7b .RemotePort \x7d\x7d;branch=I9hG4bK-d8754z-c2ac7de1b3ce90f7-1---d8754z-;rport;transport=TCP\r\n" ++
  "Max-Forwards: 70\r\n" ++
  "Contact: <sip:wuzzi@\x7b\x7b .LocalIP \x7d\x7d:\x7b\x7b .LocalPort \x7d\x7d;rinstance=v40f3f83b335139c;transport=TCP>\r\n" ++
  "To: <sip:wuzzi@example.org;transport=TCP>\r\n" ++
  "From: <sip:wuzzi@example.org;transport=TCP>;tag=U7c3d519\r\n" ++
  "Call-ID: aaaaaaaaaaaaaaaaa0404aaaaaaaaaaaabbbbbbZjQ4M2M.\r\n" ++
  "CSeq: 1 REGISTER\r\n" ++
  "Expires: 60\r\n" ++
  "Allow: REGISTER, INVITE, ACK, CANCEL, BYE, NOTIFY, REFER, MESSAGE, OPTIONS, INFO, SUBSCRIBE\r\n" ++
  "Supported: replaces, norefersub, extended-refer, timer, X-cisco-serviceuri\r\n" ++
  "Allow-Events: presence, kpml\r\n" ++
  "Content-Length: 0\r\n" ++
  "\r\n"

/-- The response template as a character list. -/
def sipResponseChars : List Char := sipResponse.data

/-- The request template as a character list. -/
def sipRequestChars : List Char := sipRequest.data

/-- A parsed `text/template` node: literal text or a `\x7b\x7b .Field \x7d\x7d`
field action. -/
inductive TItem : Type
  | lit : List Char → TItem
  | field : List Char → TItem
deriving DecidableEq

/-- Prepend a character to the leading literal node (template parser helper). -/
def addLit (c : Char) : List TItem → List TItem
  | TItem.lit s :: rest => TItem.lit (c :: s) :: rest
  | items => TItem.lit [c] :: items

/-- Parse the text of one template action (the characters strictly between
`\x7b\x7b` and `\x7d\x7d`): optional spaces, a dot, an alphabetic field name,
optional trailing spaces.  This is the fragment of `text/template` action
syntax the two fixed templates use. -/
def parseField (act : List Char) : Option (List Char) :=
  let t := act.dropWhile (fun c => c == ' ')
  let name := t.takeWhile (fun c => c != ' ')
  let rest := t.dropWhile (fun c => c != ' ')
  if rest.all (fun c => c == ' ') then
    match name with
    | '.' :: n => if n ≠ [] && n.all Char.isAlpha then some n else none
    | _ => none
  else none

/-- Template parser.  The first argument is `none` while scanning literal
text and `some acc` (with `acc` the reversed action text read so far) while
inside a `\x7b\x7b ... \x7d\x7d` action. -/
def parseAux : Option (List Char) → List Char → Option (List TItem)
  | none, [] => some []
  | none, '\x7b' :: '\x7b' :: rest => parseAux (some []) rest
  | none, c :: rest => Option.map (addLit c) (parseAux none rest)
  | some _, [] => none
  | some acc, '\x7d' :: '\x7d' :: rest =>
      match parseField acc.reverse with
      | none => none
      | some n => Option.map (fun items => TItem.field n :: items) (parseAux none rest)
  | some acc, c :: rest => parseAux (some (c :: acc)) rest

/-- The parsed response template.  `template.Must` aborts the program at
startup when parsing fails; `parse_sipResponse` below shows it succeeds, so
the default is never taken. -/
def respTemplate : List TItem := (parseAux none sipResponseChars).getD []

/-- The parsed request template (see `respTemplate`). -/
def reqTemplate : List TItem := (parseAux none sipRequestChars).getD []

/-- Field lookup in the data struct passed to `Execute`, modelled as an
association list keyed by field name. -/
def lookupField (env : List (List Char × List Char)) (n : List Char) : Option (List Char) :=
  match env with
  | [] => none
  | (k, v) :: rest => if k = n then some v else lookupField rest n

/-- Template execution into a buffer, Go style: nodes are rendered left to
right into the output; a failing field lookup stops execution, leaving the
bytes already rendered in the buffer and reporting an error (`false`). -/
def renderPartial (env : List (List Char × List Char)) : List TItem → List Char × Bool
  | [] => ([], true)
  | TItem.lit s :: rest =>
      match renderPartial env rest with
      | (o, ok) => (s ++ o, ok)
  | TItem.field n :: rest =>
      match lookupField env n with
      | none => ([], false)
      | some v =>
          match renderPartial env rest with
          | (o, ok) => (v ++ o, ok)

/-- The data struct `sendRequest` passes to `Execute`. -/
def reqEnv (ip lp rp : List Char) : List (List Char × List Char) :=
  [("LocalIP".data, ip), ("LocalPort".data, lp), ("RemotePort".data, rp)]

/-- The data struct `handleConnection` passes to `Execute`. -/
def respEnv (via contact : List Char) : List (List Char × List Char) :=
  [("Via".data, via), ("Contact".data, contact)]

/-- The character class `[^\r]` of the `Via:`/`Contact:` regexes. -/
def notCR (c : Char) : Bool := c != '\r'

/-- The character class `[^;]` of the callback regex. -/
def notSemi (c : Char) : Bool := c != ';'

/-- The token of the regex `Contact:[^\r]+`. -/
def contactTok : List Char := "Contact:".data

/-- The token of the regex `Via:[^\r]+`. -/
def viaTok : List Char := "Via:".data

/-- Attempt to match `tok[^\r]+` at the start of `s` (RE2: literal token,
then one or more non-CR characters, greedy). -/
def matchAt (tok s : List Char) : Option (List Char) :=
  if tok.isPrefixOf s then
    let body := (s.drop tok.length).takeWhile notCR
    if body.isEmpty then none else some (tok ++ body)
  else none

/-- `regexp.Find` for the pattern `tok[^\r]+`: the leftmost position where
the whole pattern matches, with the greedy (maximal) body there. -/
def reFind (tok : List Char) : List Char → Option (List Char)
  | [] => none
  | c :: cs =>
      match matchAt tok (c :: cs) with
      | some m => some m
      | none => reFind tok cs

/-- `extractCallback.FindSubmatch`'s captured group for `@(?P<callback>[^;]+)`:
the leftmost `@` followed by at least one non-`;` character; the capture is
the greedy run of non-`;` characters after that `@`. -/
def findCallback : List Char → Option (List Char)
  | [] => none
  | c :: cs =>
      if c = '@' then
        let body := cs.takeWhile notSemi
        if body.isEmpty then findCallback cs else some body
      else findCallback cs

/-- The loop guard of `handleConnection`'s read loop: more than three bytes
accumulated and the last four equal `CR LF CR LF`. -/
def isTerminated (d : List Char) : Bool :=
  decide (3 < d.length) && decide (d.drop (d.length - 4) = "\r\n\r\n".data)

/-- The read loop of `handleConnection`: read one byte at a time, append it
to `data`, stop as soon as the guard holds.  Returns the finished buffer (or
`none` if the stream ends first, matching the read-error `return`) together
with the buffer accumulated so far. -/
def runReader (acc : List Char) : List Char → Option (List Char) × List Char
  | [] => (none, acc)
  | c :: cs =>
      let d := acc ++ [c]
      if isTerminated d then (some d, d) else runReader d cs

/-- The same loop fed by a transport that delivers the stream in chunks; the
loop still consumes one byte per `Read` call, so a chunk boundary only
affects how often `Read` returns. -/
def runReaderChunked (acc : List Char) : List (List Char) → Option (List Char) × List Char
  | [] => (none, acc)
  | ch :: rest =>
      match runReader acc ch with
      | (some p, a) => (some p, a)
      | (none, a) => runReaderChunked a rest

/-- Everything a connection handler does that is visible outside it:
the write calls issued on the inbound connection (in order), the log lines,
the address dialed for the callback connection (if any), and whether the
handler crashes the whole process. -/
structure HandlerResult : Type where
  writes : List (List Char)
  logs : List String
  callbackHost : Option (List Char)
  fatal : Bool
deriving DecidableEq

/-- The post-read part of `handleConnection` in `main.go`, as a function of
the accumulated message bytes. -/
def handleMessage (data : List Char) : HandlerResult :=
  match reFind contactTok data with
  | none => ⟨[], ["bad contact"], none, false⟩
  | some contact =>
      match reFind viaTok data with
      | none => ⟨[], ["bad via"], none, false⟩
      | some via =>
          match renderPartial (respEnv via contact) respTemplate with
          | (o, ok) =>
              if ok then
                match findCallback contact with
                | none => ⟨[o], ["invalid host/port in contact"], none, false⟩
                | some host => ⟨[o], ["connecting back to"], some host, false⟩
              else ⟨[], ["unable to execute response template"], none, false⟩

/-- The post-read part of the inline connection handler in the unnamed
source file: it ignores a template-execution error (writing whatever is in
the buffer anyway), and on a missing callback submatch it falls through to
`matches[1]` on a nil slice — an index-out-of-range panic that kills the
whole process (`fatal := true`). -/
def handleMessage2 (data : List Char) : HandlerResult :=
  match reFind contactTok data with
  | none => ⟨[], ["bad contact"], none, false⟩
  | some contact =>
      match reFind viaTok data with
      | none => ⟨[], ["bad via"], none, false⟩
      | some via =>
          match renderPartial (respEnv via contact) respTemplate with
          | (o, _) =>
              match findCallback contact with
              | none => ⟨[o], [], none, true⟩
              | some host => ⟨[o], ["connecting back to"], some host, false⟩

/-- The write calls `sendRequest` issues on its dialed connection: the
request is rendered into a buffer and, if rendering succeeded, written in a
single `Write` call. -/
def sendRequestWrites (ip lp rp : List Char) : List (List Char) :=
  match renderPartial (reqEnv ip lp rp) reqTemplate with
  | (o, ok) => if ok then [o] else []

/-- `true` iff `pat` occurs (contiguously, in full) somewhere inside `s`. -/
def hasOcc (pat s : List Char) : Bool :=
  (List.range (s.length + 1)).any (fun i => pat.isPrefixOf (s.drop i))

/-- `true` iff no nonempty suffix of `seg` is comparable (by the prefix
order) with `tok`; such a segment can never contain the start of a `tok`
occurrence, whatever follows it. -/
def segSafeB (tok seg : List Char) : Bool :=
  (List.range seg.length).all
    (fun i => !(tok.isPrefixOf (seg.drop i)) && !((seg.drop i).isPrefixOf tok))

/-- No occurrence of `tok` in `seg ++ tail` starts inside `seg`. -/
def SafeSeg (tok seg tail : List Char) : Prop :=
  ∀ t, t <:+ seg → t ≠ [] → ¬ tok <+: (t ++ tail)

/-- The REGISTER request as rendered by the template with fields
`ip`/`lp`/`rp` substituted, split at the substitution points
(proved equal to the template-engine output in `render_request`). -/
def reqRendered (ip lp rp : List Char) : List Char :=
  "REGISTER sip:example.org;transport=TCP SIP/2.0\r\n".data ++
  ("Via: SIP/2.0/TCP ".data ++
  (ip ++
  (':' ::
  (rp ++
  (";branch=I9hG4bK-d8754z-c2ac7de1b3ce90f7-1---d8754z-;rport;transport=TCP".data ++
  ("\r\nMax-Forwards: 70\r\n".data ++
  ("Contact: <sip:wuzzi@".data ++
  (ip ++
  (':' ::
  (lp ++
  (";rinstance=v40f3f83b335139c;transport=TCP>".data ++
  "\r\nTo: <sip:wuzzi@example.org;transport=TCP>\r\nFrom: <sip:wuzzi@example.org;transport=TCP>;tag=U7c3d519\r\nCall-ID: aaaaaaaaaaaaaaaaa0404aaaaaaaaaaaabbbbbbZjQ4M2M.\r\nCSeq: 1 REGISTER\r\nExpires: 60\r\nAllow: REGISTER, INVITE, ACK, CANCEL, BYE, NOTIFY, REFER, MESSAGE, OPTIONS, INFO, SUBSCRIBE\r\nSupported: replaces, norefersub, extended-refer, timer, X-cisco-serviceuri\r\nAllow-Events: presence, kpml\r\nContent-Length: 0\r\n\r\n".data)))))))))))

/-- The Via line of the rendered REGISTER (without CR LF), as the claim
states it. -/
def reqViaLine (ip rp : List Char) : List Char :=
  "Via: SIP/2.0/TCP ".data ++
  (ip ++ (':' :: (rp ++
    ";branch=I9hG4bK-d8754z-c2ac7de1b3ce90f7-1---d8754z-;rport;transport=TCP".data)))

/-- The Contact line of the rendered REGISTER (without CR LF), as the claim
states it. -/
def reqContactLine (ip lp : List Char) : List Char :=
  "Contact: <sip:wuzzi@".data ++
  (ip ++ (':' :: (lp ++ ";rinstance=v40f3f83b335139c;transport=TCP>".data)))

/-- The 200 OK as rendered with Via value `via` and Contact value `contact`
(proved equal to the template-engine output in `render_response`). -/
def respRendered (via contact : List Char) : List Char :=
  "SIP/2.0 200 OK\r\n".data ++
  (via ++
  (";received=0.0.0.0\r\nFrom: <sip:wuzzi@example.org;transport=TCP>;tag=U7c3d519\r\nTo: <sip:wuzzi@example.org;transport=TCP>;tag=37GkEhwl6\r\nCall-ID: aaaaaaaaaaaaaaaaa0404aaaaaaaaaaaabbbbbbZjQ4M2M.\r\nCSeq: 1 REGISTER\r\n".data ++
  (contact ++ ";expires=3600\r\nContent-Length: 0\r\n\r\n".data)))

lemma isTerminated_iff (d : List Char) :
    isTerminated d = true ↔
      4 ≤ d.length ∧ d.drop (d.length - 4) = "\r\n\r\n".data := by
  simp only [isTerminated, Bool.and_eq_true, decide_eq_true_eq]
  constructor
  · rintro ⟨h1, h2⟩; exact ⟨by omega, h2⟩
  · rintro ⟨h1, h2⟩; exact ⟨by omega, h2⟩

lemma runReader_cons (acc : List Char) (c : Char) (cs : List Char) :
    runReader acc (c :: cs) =
      if isTerminated (acc ++ [c]) then (some (acc ++ [c]), acc ++ [c])
      else runReader (acc ++ [c]) cs := rfl

lemma runReader_some_iff (s : List Char) : ∀ (acc p : List Char),
    (runReader acc s).1 = some p ↔
      ∃ u, u <+: s ∧ u ≠ [] ∧ p = acc ++ u ∧ isTerminated p = true ∧
        ∀ v, v <+: u → v ≠ [] → isTerminated (acc ++ v) = true → v = u := by
  induction s with
  | nil =>
      intro acc p
      constructor
      · intro h; simp [runReader] at h
      · rintro ⟨u, hu, hne, -, -, -⟩
        rw [List.prefix_nil] at hu
        exact absurd hu hne
  | cons c cs ih =>
      intro acc p
      rw [runReader_cons]
      by_cases hterm : isTerminated (acc ++ [c]) = true
      · rw [if_pos hterm]
        constructor
        · intro h
          simp only [Option.some.injEq] at h
          refine ⟨[c], ⟨cs, rfl⟩, by simp, h.symm, h ▸ hterm, ?_⟩
          intro v hv hvne _
          cases v with
          | nil => exact absurd rfl hvne
          | cons a as =>
              obtain ⟨ha, has⟩ := List.cons_prefix_cons.mp hv
              rw [List.prefix_nil] at has
              rw [ha, has]
        · rintro ⟨u, hu, hne, rfl, hterm_p, hmin⟩
          have hcu : [c] <+: u := by
            cases u with
            | nil => exact absurd rfl hne
            | cons a as =>
                obtain ⟨ha, -⟩ := List.cons_prefix_cons.mp hu
                rw [List.cons_prefix_cons]
                exact ⟨ha.symm, List.nil_prefix⟩
          have heq := hmin [c] hcu (by simp) hterm
          rw [← heq]
      · rw [if_neg hterm]
        rw [ih (acc ++ [c]) p]
        constructor
        · rintro ⟨u', h1, h2, rfl, h4, h5⟩
          refine ⟨c :: u', ?_, by simp, by rw [List.append_assoc]; rfl, h4, ?_⟩
          · rw [List.cons_prefix_cons]; exact ⟨rfl, h1⟩
          · intro v hv hvne hvterm
            cases v with
            | nil => exact absurd rfl hvne
            | cons b bs =>
                obtain ⟨hb, hbs⟩ := List.cons_prefix_cons.mp hv
                rw [hb] at hvterm ⊢
                cases bs with
                | nil => exact absurd hvterm hterm
                | cons d ds =>
                    have hterm' : isTerminated ((acc ++ [c]) ++ (d :: ds)) = true := by
                      rw [List.append_assoc]; exact hvterm
                    have hds := h5 (d :: ds) hbs (by simp) hterm'
                    rw [hds]
        · rintro ⟨u, hu, hne, rfl, hterm_p, hmin⟩
          obtain ⟨a, as, rfl⟩ : ∃ a as, u = a :: as := by
            cases u with
            | nil => exact absurd rfl hne
            | cons a as => exact ⟨a, as, rfl⟩
          obtain ⟨ha, has⟩ := List.cons_prefix_cons.mp hu
          rw [ha] at hterm_p hmin ⊢
          cases as with
          | nil => exact absurd hterm_p hterm
          | cons d ds =>
              refine ⟨d :: ds, has, by simp, by rw [List.append_assoc]; rfl, hterm_p, ?_⟩
              intro v hv hvne hvterm
              have hvterm' : isTerminated (acc ++ (c :: v)) = true := by
                rw [List.append_assoc] at hvterm
                exact hvterm
              have hcv : c :: v <+: c :: d :: ds := by
                rw [List.cons_prefix_cons]; exact ⟨rfl, hv⟩
              have hfin := hmin (c :: v) hcv (by simp) hvterm'
              simpa using hfin

lemma runReader_some_iff_nil (s p : List Char) :
    (runReader [] s).1 = some p ↔
      p <+: s ∧ isTerminated p = true ∧
        ∀ v, v <+: p → v ≠ [] → isTerminated v = true → v = p := by
  rw [runReader_some_iff]
  constructor
  · rintro ⟨u, hu, hne, hp, hterm, hmin⟩
    have hpu : p = u := by simpa using hp
    constructor
    · rw [hpu]; exact hu
    refine ⟨hterm, ?_⟩
    intro v hv hvne hvterm
    have hv' : v <+: u := by rw [← hpu]; exact hv
    have hvterm' : isTerminated ([] ++ v) = true := by simpa using hvterm
    rw [hpu]
    exact hmin v hv' hvne hvterm'
  · rintro ⟨hpre, hterm, hmin⟩
    refine ⟨p, hpre, ?_, by simp, hterm, ?_⟩
    · intro h
      rw [h] at hterm
      exact absurd hterm (by decide)
    · intro v hv hvne hvterm
      apply hmin v hv hvne
      simpa using hvterm

lemma runReader_append (xs : List Char) : ∀ (acc ys : List Char),
    runReader acc (xs ++ ys) =
      match runReader acc xs with
      | (some p, a) => (some p, a)
      | (none, a) => runReader a ys := by
  induction xs with
  | nil => intro acc ys; rfl
  | cons c cs ih =>
      intro acc ys
      rw [List.cons_append, runReader_cons, runReader_cons]
      by_cases h : isTerminated (acc ++ [c]) = true
      · rw [if_pos h, if_pos h]
      · rw [if_neg h, if_neg h, ih]

lemma runReaderChunked_cons (acc : List Char) (ch : List Char) (rest : List (List Char)) :
    runReaderChunked acc (ch :: rest) =
      match runReader acc ch with
      | (some p, a) => (some p, a)
      | (none, a) => runReaderChunked a rest := rfl

lemma runReaderChunked_flatten (chunks : List (List Char)) : ∀ acc,
    runReaderChunked acc chunks = runReader acc chunks.flatten := by
  induction chunks with
  | nil => intro acc; rfl
  | cons ch rest ih =>
      intro acc
      rw [runReaderChunked_cons, List.flatten_cons, runReader_append]
      rcases hr : runReader acc ch with ⟨o, a⟩
      cases o with
      | none => exact ih a
      | some p => rfl

lemma reFind_cons (tok : List Char) (c : Char) (cs : List Char) :
    reFind tok (c :: cs) =
      match matchAt tok (c :: cs) with
      | some m => some m
      | none => reFind tok cs := rfl

lemma matchAt_eq_none (tok s : List Char) (h : ¬ tok <+: s) :
    matchAt tok s = none := by
  unfold matchAt
  rw [if_neg]
  simp only [ List.isPrefixOf_iff_prefix]
  exact h

lemma matchAt_eq_some (tok s m : List Char) (h : matchAt tok s = some m) :
    m = tok ++ (s.drop tok.length).takeWhile notCR := by
  unfold matchAt at h
  by_cases hp : tok.isPrefixOf s
  · rw [if_pos hp] at h
    by_cases he : ((s.drop tok.length).takeWhile notCR).isEmpty
    · rw [if_pos he] at h
      exact absurd h (by simp)
    · rw [if_neg he] at h
      simp only [Option.some.injEq] at h
      exact h.symm
  · rw [if_neg hp] at h
    exact absurd h (by simp)

lemma reFind_append_of_safe (tok : List Char) : ∀ (xs ys : List Char),
    SafeSeg tok xs ys → reFind tok (xs ++ ys) = reFind tok ys := by
  intro xs
  induction xs with
  | nil => intro ys _; rfl
  | cons c cs ih =>
      intro ys h
      rw [List.cons_append, reFind_cons]
      have hno : matchAt tok (c :: (cs ++ ys)) = none := by
        apply matchAt_eq_none
        have := h (c :: cs) List.suffix_rfl (by simp)
        rw [List.cons_append] at this
        exact this
      rw [hno]
      exact ih ys (fun t ht hne => h t (ht.trans (List.suffix_cons c cs)) hne)

lemma SafeSeg_append (tok : List Char) : ∀ (a b tail : List Char),
    SafeSeg tok a (b ++ tail) → SafeSeg tok b tail → SafeSeg tok (a ++ b) tail := by
  intro a
  induction a with
  | nil => intro b tail _ hb; simpa using hb
  | cons x a' ih =>
      intro b tail ha hb
      intro t ht hne
      rw [List.cons_append] at ht
      rcases List.suffix_cons_iff.mp ht with heq | hsuf
      · have := ha (x :: a') List.suffix_rfl (by simp)
        rw [List.cons_append, ← List.append_assoc] at this
        rw [heq, ← List.cons_append]
        exact this
      · exact ih b tail
          (fun t' ht' hne' => ha t' (ht'.trans (List.suffix_cons x a')) hne') hb t hsuf hne

lemma suffix_eq_drop (t seg : List Char) (h : t <:+ seg) :
    t = seg.drop (seg.length - t.length) :=
  List.suffix_iff_eq_drop.mp h

lemma segSafeB_safe (tok seg : List Char) (h : segSafeB tok seg = true) :
    ∀ tail, SafeSeg tok seg tail := by
  intro tail t ht hne hpref
  have hlen : t.length ≤ seg.length := ht.length_le
  have hpos : 0 < t.length := List.length_pos.mpr hne
  have hdrop := suffix_eq_drop t seg ht
  have hi : seg.length - t.length < seg.length := by omega
  have hmem : seg.length - t.length ∈ List.range seg.length := List.mem_range.mpr hi
  have hb := (List.all_eq_true.mp h) _ hmem
  simp only [Bool.and_eq_true, Bool.not_eq_true'] at hb
  obtain ⟨hb1, hb2⟩ := hb
  rw [← hdrop] at hb1 hb2
  have hb1' : ¬ tok <+: t := by
    rw [← List.isPrefixOf_iff_prefix]
    simp [hb1]
  have hb2' : ¬ t <+: tok := by
    rw [← List.isPrefixOf_iff_prefix]
    simp [hb2]
  have htp : t <+: t ++ tail := List.prefix_append t tail
  rcases Nat.le_total tok.length t.length with hle | hle
  · exact hb1' (List.prefix_of_prefix_length_le hpref htp hle)
  · exact hb2' (List.prefix_of_prefix_length_le htp hpref hle)

lemma hasOcc_false_no_occ (pat s : List Char) (h : hasOcc pat s = false)
    (hp : pat ≠ []) : ∀ i, ¬ pat <+: s.drop i := by
  intro i hpref
  by_cases hi : i ≤ s.length
  · have hmem : i ∈ List.range (s.length + 1) := List.mem_range.mpr (by omega)
    have := (List.any_eq_false.mp h) _ hmem
    simp only [ List.isPrefixOf_iff_prefix] at this
    exact this hpref
  · rw [List.drop_eq_nil_of_le (by omega)] at hpref
    rw [List.prefix_nil] at hpref
    exact hp hpref

lemma SafeSeg_sym (tok f ys : List Char) (c : Char)
    (h1 : ∀ i, ¬ tok <+: f.drop i)
    (h2 : ∀ n, 0 < n → n < tok.length → tok.take n <:+ f →
      (tok.drop n).head? ≠ some c) :
    SafeSeg tok f (c :: ys) := by
  intro t ht hne hpref
  have hpos : 0 < t.length := List.length_pos.mpr hne
  have htp : t <+: t ++ (c :: ys) := List.prefix_append t (c :: ys)
  rcases Nat.le_total tok.length t.length with hle | hle
  · have htok_t : tok <+: t := List.prefix_of_prefix_length_le hpref htp hle
    have := h1 (f.length - t.length)
    rw [← suffix_eq_drop t f ht] at this
    exact this htok_t
  · have ht_tok : t <+: tok := List.prefix_of_prefix_length_le htp hpref hle
    have htake : t = tok.take t.length := List.prefix_iff_eq_take.mp ht_tok
    by_cases hlt : t.length < tok.length
    · have hsuf : tok.take t.length <:+ f := by rw [← htake]; exact ht
      have hdecomp : tok = t ++ tok.drop t.length := by
        conv_lhs => rw [← List.take_append_drop t.length tok]
        rw [← htake]
      have hdroppre : tok.drop t.length <+: c :: ys := by
        rw [hdecomp] at hpref
        exact (List.prefix_append_right_inj t).mp hpref
      have hdropne : tok.drop t.length ≠ [] := by
        simp only [ne_eq, List.drop_eq_nil_iff]
        omega
      have hhead : (tok.drop t.length).head? = some c := by
        cases hd : tok.drop t.length with
        | nil => exact absurd hd hdropne
        | cons a as =>
            rw [hd] at hdroppre
            obtain ⟨ha, -⟩ := List.cons_prefix_cons.mp hdroppre
            rw [ha]
            rfl
      exact h2 t.length hpos hlt hsuf hhead
    · have hteq : t.length = tok.length := by omega
      have hteq2 : t = tok := by rw [htake, hteq, List.take_length]
      have h1' := h1 (f.length - t.length)
      rw [← suffix_eq_drop t f ht] at h1'
      apply h1'
      rw [hteq2]

lemma reFind_at_head (tok rest : List Char) (htok : tok ≠ [])
    (hne : rest.takeWhile notCR ≠ []) :
    reFind tok (tok ++ rest) = some (tok ++ rest.takeWhile notCR) := by
  have hmatch : matchAt tok (tok ++ rest) = some (tok ++ rest.takeWhile notCR) := by
    unfold matchAt
    rw [if_pos (by rw [ List.isPrefixOf_iff_prefix]; exact List.prefix_append tok rest)]
    rw [List.drop_left]
    rw [if_neg (by simp [hne])]
  obtain ⟨a, as, rfl⟩ : ∃ a as, tok = a :: as := by
    cases tok with
    | nil => exact absurd rfl htok
    | cons a as => exact ⟨a, as, rfl⟩
  rw [List.cons_append, reFind_cons, ← List.cons_append, hmatch]

lemma all_notCR (l : List Char) (h : '\r' ∉ l) : ∀ c ∈ l, notCR c = true := by
  intro c hc
  simp only [notCR, bne_iff_ne, ne_eq]
  intro hcr
  rw [hcr] at hc
  exact h hc

lemma all_notSemi (l : List Char) (h : ';' ∉ l) : ∀ c ∈ l, notSemi c = true := by
  intro c hc
  simp only [notSemi, bne_iff_ne, ne_eq]
  intro hcr
  rw [hcr] at hc
  exact h hc

lemma takeWhile_notCR_cr (l : List Char) :
    List.takeWhile notCR ('\r' :: l) = [] := by
  simp [List.takeWhile_cons, notCR]

lemma findCallback_cons_ne (c : Char) (cs : List Char) (h : c ≠ '@') :
    findCallback (c :: cs) = findCallback cs := by
  simp [findCallback, h]

lemma findCallback_at (cs : List Char) :
    findCallback ('@' :: cs) =
      if (cs.takeWhile notSemi).isEmpty then findCallback cs
      else some (cs.takeWhile notSemi) := by
  simp [findCallback]

lemma findCallback_append (xs : List Char) : ∀ ys, '@' ∉ xs →
    findCallback (xs ++ ys) = findCallback ys := by
  induction xs with
  | nil => intro ys _; rfl
  | cons c cs ih =>
      intro ys h
      rw [List.cons_append, findCallback_cons_ne c _ (fun hc => h (hc ▸ List.mem_cons_self c cs))]
      exact ih ys (fun hc => h (List.mem_cons_of_mem c hc))

lemma reFind_some_no_cr (tok : List Char) (htok : '\r' ∉ tok) :
    ∀ (s m : List Char), reFind tok s = some m → '\r' ∉ m := by
  intro s
  induction s with
  | nil => intro m h; exact absurd h (by simp [reFind])
  | cons c cs ih =>
      intro m h
      rw [reFind_cons] at h
      cases hm : matchAt tok (c :: cs) with
      | none => rw [hm] at h; exact ih m h
      | some m' =>
          rw [hm] at h
          simp only [Option.some.injEq] at h
          rw [← h]
          have := matchAt_eq_some tok (c :: cs) m' hm
          rw [this]
          intro hmem
          rcases List.mem_append.mp hmem with h1 | h2
          · exact htok h1
          · have := List.mem_takeWhile_imp h2
            simp [notCR] at this

set_option maxRecDepth 40000 in
lemma render_request (ip lp rp : List Char) :
    renderPartial (reqEnv ip lp rp) reqTemplate = (reqRendered ip lp rp, true) := rfl

set_option maxRecDepth 40000 in
lemma render_response (via contact : List Char) :
    renderPartial (respEnv via contact) respTemplate = (respRendered via contact, true) := rfl

lemma reFind_skip_lit (tok lit T : List Char) (h : segSafeB tok lit = true) :
    reFind tok (lit ++ T) = reFind tok T :=
  reFind_append_of_safe tok lit T (segSafeB_safe tok lit h T)

lemma reFind_skip_cons (tok : List Char) (c : Char) (X : List Char)
    (h : segSafeB tok [c] = true) :
    reFind tok (c :: X) = reFind tok X :=
  reFind_skip_lit tok [c] X h

lemma reFind_skip_sym (tok f : List Char) (c : Char) (ys : List Char)
    (h1 : ∀ i, ¬ tok <+: f.drop i)
    (h2 : ∀ n, 0 < n → n < tok.length → tok.take n <:+ f →
      (tok.drop n).head? ≠ some c) :
    reFind tok (f ++ (c :: ys)) = reFind tok (c :: ys) :=
  reFind_append_of_safe tok f (c :: ys) (SafeSeg_sym tok f ys c h1 h2)

lemma reFind_at_head' (tok : List Char) (c : Char) (rest : List Char)
    (htok : tok ≠ []) (hc : notCR c = true) :
    reFind tok (tok ++ (c :: rest)) = some (tok ++ List.takeWhile notCR (c :: rest)) := by
  apply reFind_at_head tok (c :: rest) htok
  rw [List.takeWhile_cons_of_pos hc]
  simp

lemma split_via (X : List Char) :
    "Via: SIP/2.0/TCP ".data ++ X = viaTok ++ (' ' :: ("SIP/2.0/TCP ".data ++ X)) := rfl

lemma split_contact (X : List Char) :
    "Contact: <sip:wuzzi@".data ++ X =
      contactTok ++ (' ' :: ("<sip:wuzzi@".data ++ X)) := rfl

lemma split_branch (X : List Char) :
    ";branch=I9hG4bK-d8754z-c2ac7de1b3ce90f7-1---d8754z-;rport;transport=TCP".data ++ X =
      ';' :: ("branch=I9hG4bK-d8754z-c2ac7de1b3ce90f7-1---d8754z-;rport;transport=TCP".data ++ X) := rfl

lemma takeWhile_maxforwards (X : List Char) :
    List.takeWhile notCR ("\r\nMax-Forwards: 70\r\n".data ++ X) = [] := by
  rw [show ("\r\nMax-Forwards: 70\r\n".data ++ X) =
    '\r' :: ("\nMax-Forwards: 70\r\n".data ++ X) from rfl]
  exact takeWhile_notCR_cr _

lemma contactTok_length : contactTok.length = 8 := rfl

lemma extract_via_of_rendered (ip lp rp : List Char)
    (hipCR : '\r' ∉ ip) (hrpCR : '\r' ∉ rp) :
    reFind viaTok (reqRendered ip lp rp) = some (reqViaLine ip rp) := by
  unfold reqRendered
  rw [reFind_skip_lit viaTok ("REGISTER sip:example.org;transport=TCP SIP/2.0\r\n".data) _
    (by decide)]
  rw [split_via]
  rw [reFind_at_head' viaTok ' ' _ (by decide) (by decide)]
  rw [List.takeWhile_cons_of_pos (by decide : notCR ' ' = true)]
  rw [@List.takeWhile_append_of_pos Char notCR ("SIP/2.0/TCP ".data) _ (by decide)]
  rw [@List.takeWhile_append_of_pos Char notCR ip _ (all_notCR ip hipCR)]
  rw [List.takeWhile_cons_of_pos (by decide : notCR ':' = true)]
  rw [@List.takeWhile_append_of_pos Char notCR rp _ (all_notCR rp hrpCR)]
  rw [@List.takeWhile_append_of_pos Char notCR
    (";branch=I9hG4bK-d8754z-c2ac7de1b3ce90f7-1---d8754z-;rport;transport=TCP".data) _
    (by decide)]
  rw [takeWhile_maxforwards]
  simp only [List.append_nil]
  rfl

lemma extract_contact_of_rendered (ip lp rp : List Char)
    (hipCR : '\r' ∉ ip) (hlpCR : '\r' ∉ lp)
    (hipC : hasOcc contactTok ip = false)
    (hrpC : hasOcc contactTok rp = false)
    (hamend : ¬ ("Contact".data <:+ ip)) :
    reFind contactTok (reqRendered ip lp rp) = some (reqContactLine ip lp) := by
  have h1ip : ∀ i, ¬ contactTok <+: ip.drop i :=
    hasOcc_false_no_occ contactTok ip hipC (by decide)
  have h1rp : ∀ i, ¬ contactTok <+: rp.drop i :=
    hasOcc_false_no_occ contactTok rp hrpC (by decide)
  have h2ip : ∀ n, 0 < n → n < contactTok.length → contactTok.take n <:+ ip →
      (contactTok.drop n).head? ≠ some ':' := by
    intro n hn hlt hsuf
    rw [contactTok_length] at hlt
    interval_cases n
    · decide
    · decide
    · decide
    · decide
    · decide
    · decide
    · intro _
      exact hamend ((show contactTok.take 7 = "Contact".data from rfl) ▸ hsuf)
  have h2rp : ∀ n, 0 < n → n < contactTok.length → contactTok.take n <:+ rp →
      (contactTok.drop n).head? ≠ some ';' := by
    intro n hn hlt _
    rw [contactTok_length] at hlt
    interval_cases n <;> decide
  unfold reqRendered
  rw [reFind_skip_lit contactTok ("REGISTER sip:example.org;transport=TCP SIP/2.0\r\n".data) _
    (by decide)]
  rw [reFind_skip_lit contactTok ("Via: SIP/2.0/TCP ".data) _ (by decide)]
  rw [reFind_skip_sym contactTok ip ':' _ h1ip h2ip]
  rw [reFind_skip_cons contactTok ':' _ (by decide)]
  rw [split_branch]
  rw [reFind_skip_sym contactTok rp ';' _ h1rp h2rp]
  rw [reFind_skip_cons contactTok ';' _ (by decide)]
  rw [reFind_skip_lit contactTok
    ("branch=I9hG4bK-d8754z-c2ac7de1b3ce90f7-1---d8754z-;rport;transport=TCP".data) _
    (by decide)]
  rw [reFind_skip_lit contactTok ("\r\nMax-Forwards: 70\r\n".data) _ (by decide)]
  rw [split_contact]
  rw [reFind_at_head' contactTok ' ' _ (by decide) (by decide)]
  rw [List.takeWhile_cons_of_pos (by decide : notCR ' ' = true)]
  rw [@List.takeWhile_append_of_pos Char notCR ("<sip:wuzzi@".data) _ (by decide)]
  rw [@List.takeWhile_append_of_pos Char notCR ip _ (all_notCR ip hipCR)]
  rw [List.takeWhile_cons_of_pos (by decide : notCR ':' = true)]
  rw [@List.takeWhile_append_of_pos Char notCR lp _ (all_notCR lp hlpCR)]
  rw [@List.takeWhile_append_of_pos Char notCR
    (";rinstance=v40f3f83b335139c;transport=TCP>".data) _ (by decide)]
  rw [show List.takeWhile notCR
    ("\r\nTo: <sip:wuzzi@example.org;transport=TCP>\r\nFrom: <sip:wuzzi@example.org;transport=TCP>;tag=U7c3d519\r\nCall-ID: aaaaaaaaaaaaaaaaa0404aaaaaaaaaaaabbbbbbZjQ4M2M.\r\nCSeq: 1 REGISTER\r\nExpires: 60\r\nAllow: REGISTER, INVITE, ACK, CANCEL, BYE, NOTIFY, REFER, MESSAGE, OPTIONS, INFO, SUBSCRIBE\r\nSupported: replaces, norefersub, extended-refer, timer, X-cisco-serviceuri\r\nAllow-Events: presence, kpml\r\nContent-Length: 0\r\n\r\n".data) = [] from rfl]
  simp only [List.append_nil]
  rfl

lemma handleMessage_eq_bad_contact (data : List Char)
    (hc : reFind contactTok data = none) :
    handleMessage data = ⟨[], ["bad contact"], none, false⟩ := by
  unfold handleMessage
  rw [hc]

lemma handleMessage_eq_bad_via (data contact : List Char)
    (hc : reFind contactTok data = some contact)
    (hv : reFind viaTok data = none) :
    handleMessage data = ⟨[], ["bad via"], none, false⟩ := by
  unfold handleMessage
  rw [hc, hv]

set_option maxRecDepth 40000 in
lemma handleMessage_eq_ok (data via contact : List Char)
    (hc : reFind contactTok data = some contact)
    (hv : reFind viaTok data = some via) :
    handleMessage data =
      match findCallback contact with
      | none => ⟨[respRendered via contact], ["invalid host/port in contact"], none, false⟩
      | some host => ⟨[respRendered via contact], ["connecting back to"], some host, false⟩ := by
  unfold handleMessage
  simp only [hc, hv, render_response]
  exact if_pos trivial

set_option maxRecDepth 40000 in
lemma handleMessage2_eq_ok (data via contact : List Char)
    (hc : reFind contactTok data = some contact)
    (hv : reFind viaTok data = some via) :
    handleMessage2 data =
      match findCallback contact with
      | none => ⟨[respRendered via contact], [], none, true⟩
      | some host => ⟨[respRendered via contact], ["connecting back to"], some host, false⟩ := by
  unfold handleMessage2
  simp only [hc, hv, render_response]

set_option maxRecDepth 40000 in
lemma sendRequestWrites_eq (ip lp rp : List Char) :
    sendRequestWrites ip lp rp = [reqRendered ip lp rp] := by
  unfold sendRequestWrites
  rw [render_request]
  rfl

/-- Claim C1 (amended): for every `localIP`, `localPort`, `remotePort` not
containing CR, LF, or the tokens `Via:`/`Contact:`, and such that `localIP`
does not end with `Contact` (the amendment: such a `localIP` followed by the
template's literal `:` forms `Contact:` inside the rendered Via line and
hijacks the leftmost `Contact:` match), rendering the REGISTER skeleton and
running `extractContact`/`extractVia` on the rendered bytes returns exactly
the rendered Contact line and exactly the rendered Via line, each without
its terminating CR LF. -/
theorem c1_template_roundtrip (ip lp rp : List Char)
    (hip1 : '\r' ∉ ip) (hip2 : '\n' ∉ ip)
    (hlp1 : '\r' ∉ lp) (hlp2 : '\n' ∉ lp)
    (hrp1 : '\r' ∉ rp) (hrp2 : '\n' ∉ rp)
    (hipV : hasOcc viaTok ip = false) (hipC : hasOcc contactTok ip = false)
    (hlpV : hasOcc viaTok lp = false) (hlpC : hasOcc contactTok lp = false)
    (hrpV : hasOcc viaTok rp = false) (hrpC : hasOcc contactTok rp = false)
    (hamend : ¬ ("Contact".data <:+ ip)) :
    renderPartial (reqEnv ip lp rp) reqTemplate = (reqRendered ip lp rp, true) ∧
    reFind contactTok (reqRendered ip lp rp) = some (reqContactLine ip lp) ∧
    reFind viaTok (reqRendered ip lp rp) = some (reqViaLine ip rp) :=
  ⟨render_request ip lp rp,
   extract_contact_of_rendered ip lp rp hip1 hlp1 hipC hrpC hamend,
   extract_via_of_rendered ip lp rp hip1 hrp1⟩

set_option maxRecDepth 100000 in
/-- Witness for C1 at `localIP = 10.0.0.2`, `localPort = 5060`,
`remotePort = 5071`. -/
theorem c1_template_roundtrip_witness :
    ('\r' ∉ "10.0.0.2".data ∧ '\n' ∉ "10.0.0.2".data ∧
     '\r' ∉ "5060".data ∧ '\n' ∉ "5060".data ∧
     '\r' ∉ "5071".data ∧ '\n' ∉ "5071".data ∧
     hasOcc viaTok "10.0.0.2".data = false ∧ hasOcc contactTok "10.0.0.2".data = false ∧
     hasOcc viaTok "5060".data = false ∧ hasOcc contactTok "5060".data = false ∧
     hasOcc viaTok "5071".data = false ∧ hasOcc contactTok "5071".data = false ∧
     ¬ ("Contact".data <:+ "10.0.0.2".data)) ∧
    (renderPartial (reqEnv "10.0.0.2".data "5060".data "5071".data) reqTemplate =
      (reqRendered "10.0.0.2".data "5060".data "5071".data, true) ∧
     reFind contactTok (reqRendered "10.0.0.2".data "5060".data "5071".data) =
      some (reqContactLine "10.0.0.2".data "5060".data) ∧
     reFind viaTok (reqRendered "10.0.0.2".data "5060".data "5071".data) =
      some (reqViaLine "10.0.0.2".data "5071".data)) :=
  ⟨⟨by decide, by decide, by decide, by decide, by decide, by decide, by decide,
    by decide, by decide, by decide, by decide, by decide, by decide⟩,
   c1_template_roundtrip "10.0.0.2".data "5060".data "5071".data
     (by decide) (by decide) (by decide) (by decide) (by decide) (by decide)
     (by decide) (by decide) (by decide) (by decide) (by decide) (by decide)
     (by decide)⟩

set_option maxRecDepth 100000 in
/-- Counterexample to C1 as stated: `localIP = Contact`, `localPort = 1`,
`remotePort = 2` satisfy every hypothesis of the claim (no CR/LF, and none
of the three fields contains `Via:` or `Contact:`), rendering succeeds, and
yet `extractContact` on the rendered bytes does not return the rendered
Contact line: the leftmost `Contact:` match starts inside the Via line,
formed by the substituted `localIP` and the template's literal `:`. -/
theorem c1_counterexample :
    ('\r' ∉ "Contact".data ∧ '\n' ∉ "Contact".data ∧
     '\r' ∉ "1".data ∧ '\n' ∉ "1".data ∧ '\r' ∉ "2".data ∧ '\n' ∉ "2".data ∧
     hasOcc viaTok "Contact".data = false ∧ hasOcc contactTok "Contact".data = false ∧
     hasOcc viaTok "1".data = false ∧ hasOcc contactTok "1".data = false ∧
     hasOcc viaTok "2".data = false ∧ hasOcc contactTok "2".data = false) ∧
    renderPartial (reqEnv "Contact".data "1".data "2".data) reqTemplate =
      (reqRendered "Contact".data "1".data "2".data, true) ∧
    reFind contactTok (reqRendered "Contact".data "1".data "2".data) ≠
      some (reqContactLine "Contact".data "1".data) :=
  ⟨⟨by decide, by decide, by decide, by decide, by decide, by decide,
    by decide, by decide, by decide, by decide, by decide, by decide⟩,
   render_request "Contact".data "1".data "2".data,
   by decide⟩

/-- Claim C2: for every nonempty `HOSTPORT` containing neither `;` nor `@`
and every `user` containing neither `@` nor `;`, `extractCallback` applied
to `Contact: <sip:user@HOSTPORT;params>` captures exactly `HOSTPORT`. -/
theorem c2_callback_extraction (user hp : List Char)
    (hne : hp ≠ []) (hsemi : ';' ∉ hp) (hat : '@' ∉ hp)
    (huat : '@' ∉ user) (husemi : ';' ∉ user) :
    findCallback ("Contact: <sip:".data ++ (user ++ ('@' :: (hp ++ ";params>".data)))) =
      some hp := by
  rw [findCallback_append ("Contact: <sip:".data) _ (by decide)]
  rw [findCallback_append user _ huat]
  rw [findCallback_at]
  rw [@List.takeWhile_append_of_pos Char notSemi hp _ (all_notSemi hp hsemi)]
  rw [show List.takeWhile notSemi (";params>".data) = [] from rfl]
  rw [List.append_nil]
  rw [if_neg (by simpa using hne)]

/-- Witness for C2 at `user = wuzzi`, `HOSTPORT = 10.0.0.2:5060`. -/
theorem c2_callback_extraction_witness :
    ("10.0.0.2:5060".data ≠ [] ∧ ';' ∉ "10.0.0.2:5060".data ∧ '@' ∉ "10.0.0.2:5060".data ∧
     '@' ∉ "wuzzi".data ∧ ';' ∉ "wuzzi".data) ∧
    findCallback ("Contact: <sip:".data ++
      ("wuzzi".data ++ ('@' :: ("10.0.0.2:5060".data ++ ";params>".data)))) =
      some "10.0.0.2:5060".data :=
  ⟨⟨by decide, by decide, by decide, by decide, by decide⟩,
   c2_callback_extraction "wuzzi".data "10.0.0.2:5060".data
     (by decide) (by decide) (by decide) (by decide) (by decide)⟩

/-- Claim C3: the read loop stops exactly at the first prefix of the stream
that is at least four bytes long and whose last four bytes are CR LF CR LF,
and never earlier; and feeding the same bytes in arbitrary chunks produces
the same outcome as feeding the concatenated stream, because the loop reads
one byte per `Read` call regardless of how the transport frames them. -/
theorem c3_frame_termination (s : List Char) (chunks : List (List Char)) (p : List Char) :
    ((runReader [] s).1 = some p ↔
      (p <+: s ∧ 4 ≤ p.length ∧ p.drop (p.length - 4) = "\r\n\r\n".data ∧
        ∀ q, q <+: p → 4 ≤ q.length → q.drop (q.length - 4) = "\r\n\r\n".data → q = p)) ∧
    runReaderChunked [] chunks = runReader [] chunks.flatten := by
  constructor
  · rw [runReader_some_iff_nil]
    constructor
    · rintro ⟨hpre, hterm, hmin⟩
      obtain ⟨h4, hdrop⟩ := (isTerminated_iff p).mp hterm
      refine ⟨hpre, h4, hdrop, ?_⟩
      intro q hq hq4 hqdrop
      exact hmin q hq (fun h => by subst h; simp at hq4)
        ((isTerminated_iff q).mpr ⟨hq4, hqdrop⟩)
    · rintro ⟨hpre, h4, hdrop, hmin⟩
      refine ⟨hpre, (isTerminated_iff p).mpr ⟨h4, hdrop⟩, ?_⟩
      intro v hv hvne hvterm
      obtain ⟨hv4, hvdrop⟩ := (isTerminated_iff v).mp hvterm
      exact hmin v hv hv4 hvdrop
  · exact runReaderChunked_flatten chunks []

/-- Witness for C3: a stream whose terminator is split across two chunks;
the loop stops exactly after the terminator, and the chunked run agrees. -/
theorem c3_frame_termination_witness :
    (runReader [] "ab\r\n\r\ncd".data).1 = some "ab\r\n\r\n".data ∧
    (((runReader [] "ab\r\n\r\ncd".data).1 = some "ab\r\n\r\n".data ↔
      ("ab\r\n\r\n".data <+: "ab\r\n\r\ncd".data ∧ 4 ≤ "ab\r\n\r\n".data.length ∧
        "ab\r\n\r\n".data.drop ("ab\r\n\r\n".data.length - 4) = "\r\n\r\n".data ∧
        ∀ q, q <+: "ab\r\n\r\n".data → 4 ≤ q.length →
          q.drop (q.length - 4) = "\r\n\r\n".data → q = "ab\r\n\r\n".data)) ∧
      runReaderChunked [] ["ab\r\n".data, "\r\ncd".data] =
        runReader [] (["ab\r\n".data, "\r\ncd".data] : List (List Char)).flatten) :=
  ⟨by decide,
   c3_frame_termination "ab\r\n\r\ncd".data ["ab\r\n".data, "\r\ncd".data] "ab\r\n\r\n".data⟩

/-- Claim C4: whenever `extractVia` or `extractContact` finds no match in
the received buffer, the handler writes nothing on the inbound connection,
attempts no callback, logs which field failed, and terminates the
connection handling without crashing the process. -/
theorem c4_no_response_on_failure (data : List Char)
    (h : reFind viaTok data = none ∨ reFind contactTok data = none) :
    (handleMessage data).writes = [] ∧ (handleMessage data).callbackHost = none ∧
    ((handleMessage data).logs = ["bad contact"] ∨ (handleMessage data).logs = ["bad via"]) ∧
    (handleMessage data).fatal = false := by
  cases hc : reFind contactTok data with
  | none =>
      rw [handleMessage_eq_bad_contact data hc]
      exact ⟨rfl, rfl, Or.inl rfl, rfl⟩
  | some contact =>
      cases hv : reFind viaTok data with
      | none =>
          rw [handleMessage_eq_bad_via data contact hc hv]
          exact ⟨rfl, rfl, Or.inr rfl, rfl⟩
      | some via =>
          rcases h with h | h
          · rw [hv] at h; exact absurd h (by simp)
          · rw [hc] at h; exact absurd h (by simp)

/-- Witness for C4 on a buffer containing neither token. -/
theorem c4_no_response_on_failure_witness :
    (reFind viaTok "hello\r\n\r\n".data = none ∨
     reFind contactTok "hello\r\n\r\n".data = none) ∧
    ((handleMessage "hello\r\n\r\n".data).writes = [] ∧
     (handleMessage "hello\r\n\r\n".data).callbackHost = none ∧
     ((handleMessage "hello\r\n\r\n".data).logs = ["bad contact"] ∨
      (handleMessage "hello\r\n\r\n".data).logs = ["bad via"]) ∧
     (handleMessage "hello\r\n\r\n".data).fatal = false) :=
  ⟨Or.inl (by decide),
   c4_no_response_on_failure "hello\r\n\r\n".data (Or.inl (by decide))⟩

/-- Claim C5: when both headers are extracted, the handler writes exactly
the fixed 200 OK text with the extracted Via and Contact values spliced in
verbatim (`respRendered`), as the single message on the inbound
connection. -/
theorem c5_response_shape (data via contact : List Char)
    (hc : reFind contactTok data = some contact)
    (hv : reFind viaTok data = some via) :
    (handleMessage data).writes = [respRendered via contact] := by
  rw [handleMessage_eq_ok data via contact hc hv]
  cases findCallback contact <;> rfl

set_option maxRecDepth 100000 in
/-- Witness for C5 on a concrete REGISTER. -/
theorem c5_response_shape_witness :
    (reFind contactTok "Contact: <sip:a@b:1;x>\r\nVia: SIP/2.0/TCP h\r\n\r\n".data =
      some "Contact: <sip:a@b:1;x>".data ∧
     reFind viaTok "Contact: <sip:a@b:1;x>\r\nVia: SIP/2.0/TCP h\r\n\r\n".data =
      some "Via: SIP/2.0/TCP h".data) ∧
    (handleMessage "Contact: <sip:a@b:1;x>\r\nVia: SIP/2.0/TCP h\r\n\r\n".data).writes =
      [respRendered "Via: SIP/2.0/TCP h".data "Contact: <sip:a@b:1;x>".data] :=
  ⟨⟨by decide, by decide⟩,
   c5_response_shape "Contact: <sip:a@b:1;x>\r\nVia: SIP/2.0/TCP h\r\n\r\n".data
     "Via: SIP/2.0/TCP h".data "Contact: <sip:a@b:1;x>".data (by decide) (by decide)⟩

/-- Claim C6: the whole rendered 200 OK is delivered in exactly one write
call on the inbound connection, and the whole rendered REGISTER in exactly
one write call on the dialed connection; neither message is ever split. -/
theorem c6_single_write (data via contact ip lp rp : List Char)
    (hc : reFind contactTok data = some contact)
    (hv : reFind viaTok data = some via) :
    (handleMessage data).writes = [respRendered via contact] ∧
    sendRequestWrites ip lp rp = [reqRendered ip lp rp] := by
  constructor
  · rw [handleMessage_eq_ok data via contact hc hv]
    cases findCallback contact <;> rfl
  · exact sendRequestWrites_eq ip lp rp

set_option maxRecDepth 100000 in
/-- Witness for C6. -/
theorem c6_single_write_witness :
    (reFind contactTok "Contact: <sip:a@b:1;x>\r\nVia: V\r\n\r\n".data =
      some "Contact: <sip:a@b:1;x>".data ∧
     reFind viaTok "Contact: <sip:a@b:1;x>\r\nVia: V\r\n\r\n".data = some "Via: V".data) ∧
    ((handleMessage "Contact: <sip:a@b:1;x>\r\nVia: V\r\n\r\n".data).writes =
      [respRendered "Via: V".data "Contact: <sip:a@b:1;x>".data] ∧
     sendRequestWrites "10.0.0.2".data "5060".data "5071".data =
      [reqRendered "10.0.0.2".data "5060".data "5071".data]) :=
  ⟨⟨by decide, by decide⟩,
   c6_single_write "Contact: <sip:a@b:1;x>\r\nVia: V\r\n\r\n".data
     "Via: V".data "Contact: <sip:a@b:1;x>".data
     "10.0.0.2".data "5060".data "5071".data (by decide) (by decide)⟩

/-- Claim C7 (amended): any header value returned by `extractVia` or
`extractContact` contains no embedded CR.  (The original claim also ruled
out LF, but the regex character class `[^\r]` admits LF, see the
counterexample.) -/
theorem c7_single_line (data m : List Char)
    (h : reFind viaTok data = some m ∨ reFind contactTok data = some m) :
    '\r' ∉ m := by
  rcases h with h | h
  · exact reFind_some_no_cr viaTok (by decide) data m h
  · exact reFind_some_no_cr contactTok (by decide) data m h

/-- Counterexample to C7 as stated: on a buffer with a bare LF inside the
Contact line, the extracted header value contains that LF (the regex body
`[^\r]+` only excludes CR). -/
theorem c7_counterexample :
    reFind contactTok "Contact:a\nb".data = some "Contact:a\nb".data ∧
    '\n' ∈ "Contact:a\nb".data :=
  ⟨by decide, by decide⟩

/-- Witness for C7 (amended). -/
theorem c7_single_line_witness :
    reFind viaTok "Via: h\r\n\r\n".data = some "Via: h".data ∧
    '\r' ∉ "Via: h".data :=
  ⟨by decide,
   c7_single_line "Via: h\r\n\r\n".data "Via: h".data (Or.inl (by decide))⟩

set_option maxRecDepth 100000 in
/-- Claim C8: in `main.go` a Contact line with no `@` leads to a logged,
connection-local failure with no callback dialed and no process exit; but
the inline handler of the unnamed variant falls through its empty
`len(matches) < 2` branch and indexes `matches[1]` on a nil slice — a
runtime panic that kills the whole process — so the claim's guarantee is
violated by that file (the code bug). -/
theorem c8_extraction_failure_fatality :
    (handleMessage "Contact: nohost\r\nVia: SIP/2.0/TCP h\r\n\r\n".data).fatal = false ∧
    (handleMessage "Contact: nohost\r\nVia: SIP/2.0/TCP h\r\n\r\n".data).callbackHost = none ∧
    (handleMessage "Contact: nohost\r\nVia: SIP/2.0/TCP h\r\n\r\n".data).logs =
      ["invalid host/port in contact"] ∧
    (handleMessage2 "Contact: nohost\r\nVia: SIP/2.0/TCP h\r\n\r\n".data).fatal = true :=
  ⟨by decide, by decide, by decide, by decide⟩

/-- Claim C9: executing the compiled templates never fails at request time —
for arbitrary substituted values both renders succeed — so the handler's
template-execution error branch is dead: no input makes the handler log the
template-execution failure message. -/
theorem c9_render_never_fails (via contact ip lp rp data : List Char) :
    (renderPartial (respEnv via contact) respTemplate).2 = true ∧
    (renderPartial (reqEnv ip lp rp) reqTemplate).2 = true ∧
    "unable to execute response template" ∉ (handleMessage data).logs := by
  refine ⟨by rw [render_response], by rw [render_request], ?_⟩
  cases hc : reFind contactTok data with
  | none => rw [handleMessage_eq_bad_contact data hc]; decide
  | some contact =>
      cases hv : reFind viaTok data with
      | none => rw [handleMessage_eq_bad_via data contact hc hv]; decide
      | some via =>
          rw [handleMessage_eq_ok data via contact hc hv]
          cases findCallback contact with
          | none =>
              show "unable to execute response template" ∉
                (["invalid host/port in contact"] : List String)
              decide
          | some host =>
              show "unable to execute response template" ∉
                (["connecting back to"] : List String)
              decide

/-- Claim C10: on any buffer where both extractions succeed, the 200 OK
bytes written by `main.go`'s handler and by the unnamed variant's inline
handler are identical (same templates, same regexes). -/
theorem c10_version_agreement (data via contact : List Char)
    (hc : reFind contactTok data = some contact)
    (hv : reFind viaTok data = some via) :
    (handleMessage data).writes = (handleMessage2 data).writes := by
  rw [handleMessage_eq_ok data via contact hc hv,
    handleMessage2_eq_ok data via contact hc hv]
  cases findCallback contact <;> rfl

set_option maxRecDepth 100000 in
/-- Witness for C10. -/
theorem c10_version_agreement_witness :
    (reFind contactTok "Contact: <sip:a@b:1;x>\r\nVia: V\r\n\r\n".data =
      some "Contact: <sip:a@b:1;x>".data ∧
     reFind viaTok "Contact: <sip:a@b:1;x>\r\nVia: V\r\n\r\n".data = some "Via: V".data) ∧
    (handleMessage "Contact: <sip:a@b:1;x>\r\nVia: V\r\n\r\n".data).writes =
      (handleMessage2 "Contact: <sip:a@b:1;x>\r\nVia: V\r\n\r\n".data).writes :=
  ⟨⟨by decide, by decide⟩,
   c10_version_agreement "Contact: <sip:a@b:1;x>\r\nVia: V\r\n\r\n".data
     "Via: V".data "Contact: <sip:a@b:1;x>".data (by decide) (by decide)⟩

end Slipstream
